import Mathlib

/-!
Verification development for the StudyBot GraphRAG retrieval core
(`src/retrieval/retrieval_system.py`, with collaborators in
`src/nlp/entity_extractor.py` and `src/graph/graph_maneger.py`).

Python strings are modelled as `List Char`; Python `str.strip`, `str.split`
and `str.join` are embedded as `pyStrip`, `pySplit` and `pyJoin`.  External
collaborators (the Groq language model, the Neo4j graph store, the vector
index, langchain's `remove_lucene_chars` and langchain's rendering of
message lists / passthrough inputs into prompt templates) are modelled as
oracle functions bundled in an `Env`; fallible calls return `Except Chars`
where the error value is the exception's message (`str(e)` in Python).
-/

/-- Characters of a Python string. -/
abbrev Chars := List Char

/-- Character list of a Lean string literal. -/
def chars (s : String) : Chars := s.data

/-- Python `str.strip()`: drop leading and trailing whitespace. -/
def pyStrip (s : Chars) : Chars :=
  ((s.dropWhile Char.isWhitespace).reverse.dropWhile Char.isWhitespace).reverse

/-- Auxiliary scanner for Python `str.split()` (no separator argument):
`acc` holds the characters of the current token, reversed. -/
def pySplitAux : List Char → List Char → List Chars
  | [], acc => if acc = [] then [] else [acc.reverse]
  | c :: cs, acc =>
    if c.isWhitespace then
      if acc = [] then pySplitAux cs [] else acc.reverse :: pySplitAux cs []
    else pySplitAux cs (c :: acc)

/-- Python `str.split()` with no argument: split on runs of whitespace,
dropping empty tokens. -/
def pySplit (s : Chars) : List Chars := pySplitAux s []

/-- Python `sep.join(xs)`. -/
def pyJoin (sep : Chars) : List Chars → Chars
  | [] => []
  | [x] => x
  | x :: y :: rest => x ++ sep ++ pyJoin sep (y :: rest)

/-- Loop body of `generate_full_text_query` before the final `.strip()`:
`for word in words[:-1]: full_text_query += f" {word}~2 AND"` followed by
`if words: full_text_query += f" {words[-1]}~2"`. -/
def gftqBody (words : List Chars) : Chars :=
  let full_text_query :=
    words.dropLast.foldl (fun q word => q ++ chars " " ++ word ++ chars "~2 AND") []
  match words.getLast? with
  | some w => full_text_query ++ chars " " ++ w ++ chars "~2"
  | none => full_text_query

/-- Embedding of `RetrievalSystem.generate_full_text_query`
(`retrieval_system.py:90-106`).  `remove_lucene_chars` is the langchain
sanitiser, passed in as an oracle. -/
def generate_full_text_query (remove_lucene_chars : Chars → Chars)
    (input_text : Chars) : Chars :=
  let words := (pySplit (remove_lucene_chars input_text)).filter (fun el => el ≠ [])
  pyStrip (gftqBody words)

/-- Message produced by `RetrievalSystem._format_chat_history`
(`retrieval_system.py:82-88`): langchain `HumanMessage` / `AIMessage`. -/
inductive ChatMsg where
  | human (content : Chars)
  | ai (content : Chars)
deriving DecidableEq

/-- Input dict passed to `chain.invoke` in `answer_question`
(`retrieval_system.py:192-197`): the `question` key is always present and
the `chat_history` key is present exactly when the caller passed a truthy
(non-empty) history, so an empty list models both an absent and an empty
history (`bool(x.get("chat_history"))` is `False` in both cases). -/
structure PipelineInput where
  question : Chars
  chat_history : List (Chars × Chars)
deriving DecidableEq

/-- Oracles for the external collaborators of `RetrievalSystem`:
`entity_chain` is `EntityExtractor.entity_chain.invoke` returning the
`names` list (`entity_extractor.py:45-59`); `graph_query` is
`graph_manager.graph.query` with the fixed entity-neighbourhood Cypher of
`structured_retriever` (`retrieval_system.py:126-141`), keyed by the
`$query` parameter and returning the `output` column rows; `vector_index`
is `graph_manager.vector_index.similarity_search` returning the
`page_content` of each document, `none` when the handle is unset
(`graph_maneger.py:18`); `llm` is `graph_manager.llm` invoked on a fully
formatted prompt string; `remove_lucene_chars` is the langchain sanitiser;
`render_messages` is langchain's rendering of a message list into the
`{chat_history}` slot of `PromptTemplate`; `render_input` is langchain's
rendering of the raw chain input (passed through by
`RunnablePassthrough()`) into the `{question}` slot of the QA prompt.
Fallible calls return `Except Chars` carrying the exception message. -/
structure Env where
  entity_chain : Chars → Except Chars (List Chars)
  graph_query : Chars → Except Chars (List Chars)
  vector_index : Option (Chars → Except Chars (List Chars))
  llm : Chars → Except Chars Chars
  remove_lucene_chars : Chars → Chars
  render_messages : List ChatMsg → Chars
  render_input : PipelineInput → Chars

/-- Embedding of `EntityExtractor.extract_entities`
(`entity_extractor.py:47-62`): returns the extracted names, or `[]` when
the extraction chain raises. -/
def extract_entities (env : Env) (question : Chars) : List Chars :=
  match env.entity_chain question with
  | .ok names => names
  | .error _ => []

/-- Embedding of `RetrievalSystem.structured_retriever`
(`retrieval_system.py:108-146`): for each extracted entity, skip it if its
strip is empty; otherwise query the graph store with the generated
full-text query and append the newline-joined `output` rows to the running
result; on a store exception, log and continue with the result unchanged. -/
def structured_retriever (env : Env) (question : Chars) : Chars :=
  (extract_entities env question).foldl
    (fun result entity =>
      if pyStrip entity = [] then result
      else
        match env.graph_query (generate_full_text_query env.remove_lucene_chars entity) with
        | .ok response => result ++ pyJoin (chars "\n") response
        | .error _ => result)
    []

/-- Per-iteration trace of the `structured_retriever` loop: one entry for
each entity that is actually sent to the graph store (i.e. whose strip is
non-empty), paired with the rows its query contributed (`[]` when the
store raised, since then nothing is appended). -/
def structuredSteps (env : Env) (question : Chars) : List (Chars × List Chars) :=
  (extract_entities env question).filterMap
    (fun entity =>
      if pyStrip entity = [] then none
      else
        match env.graph_query (generate_full_text_query env.remove_lucene_chars entity) with
        | .ok response => some (entity, response)
        | .error _ => some (entity, []))

/-- Embedding of the unstructured branch of `RetrievalSystem.retriever`
(`retrieval_system.py:163-170`): empty when the vector-index handle is
unset, the passage texts on success, and empty on a search exception. -/
def unstructured_retrieve (env : Env) (question : Chars) : List Chars :=
  match env.vector_index with
  | none => []
  | some sim =>
    match sim question with
    | .ok docs => docs
    | .error _ => []

/-- Embedding of the combining f-string of `RetrievalSystem.retriever`
(`retrieval_system.py:172-179`). -/
def combineContext (structured_data : Chars) (unstructured_data : List Chars) : Chars :=
  chars "Structured data:\n" ++ structured_data
    ++ chars "\n\nUnstructured data:\n"
    ++ pyJoin (chars "#Document ") unstructured_data

/-- Embedding of `RetrievalSystem.retriever` (`retrieval_system.py:148-179`). -/
def retriever (env : Env) (question : Chars) : Chars :=
  combineContext (structured_retriever env question) (unstructured_retrieve env question)

/-- Embedding of `RetrievalSystem._format_chat_history`
(`retrieval_system.py:82-88`). -/
def _format_chat_history (chat_history : List (Chars × Chars)) : List ChatMsg :=
  chat_history.foldl
    (fun buffer turn => buffer ++ [ChatMsg.human turn.1, ChatMsg.ai turn.2]) []

/-- Rendering of `CONDENSE_QUESTION_PROMPT` (`retrieval_system.py:29-37`)
with the `{chat_history}` and `{question}` slots substituted. -/
def CONDENSE_QUESTION_PROMPT (chat_history : Chars) (question : Chars) : Chars :=
  chars "Given the following conversation and a follow up question, \n        rephrase the follow up question to be a standalone question, in its original language.\n        \n        Chat History:\n        "
    ++ chat_history
    ++ chars "\n        Follow Up Input: "
    ++ question
    ++ chars "\n        Standalone question:"

/-- Rendering of `qa_prompt` (`retrieval_system.py:56-67`) with the
`{context}` and `{question}` slots substituted. -/
def qa_prompt (context : Chars) (question : Chars) : Chars :=
  chars "Answer the question based only on the following context:\n        "
    ++ context
    ++ chars "\n\n        Question: "
    ++ question
    ++ chars "\n\n        Provide a comprehensive answer based on the context. If the context doesn"
    ++ ['\'']
    ++ chars "t contain \n        enough information to answer the question completely, say so and provide what \n        information is available.\n\n        Answer:"

/-- Embedding of the `_search_query` `RunnableBranch`
(`retrieval_system.py:40-53`): when `bool(x.get("chat_history"))` holds,
format the history, render the condense prompt and call the model
(`StrOutputParser` is the identity on the produced text); otherwise pass
`x["question"]` through unchanged. -/
def _search_query (env : Env) (x : PipelineInput) : Except Chars Chars :=
  if x.chat_history ≠ [] then
    env.llm (CONDENSE_QUESTION_PROMPT
      (env.render_messages (_format_chat_history x.chat_history)) x.question)
  else
    Except.ok x.question

/-- The fully formatted QA prompt produced by the main chain
(`retrieval_system.py:70-77`): the `RunnableParallel` feeds the
`{context}` slot from `_search_query | retriever` and the `{question}`
slot from `RunnablePassthrough()` — i.e. from the raw chain input `x`, as
rendered into the template, not from the rewritten search question. -/
def final_prompt (env : Env) (x : PipelineInput) : Except Chars Chars :=
  (_search_query env x).map
    (fun search_question => qa_prompt (retriever env search_question) (env.render_input x))

/-- Embedding of `self.chain.invoke` (`retrieval_system.py:70-80`): the
formatted QA prompt is sent to the model and `StrOutputParser` returns its
text unchanged. -/
def chain_invoke (env : Env) (x : PipelineInput) : Except Chars Chars :=
  (final_prompt env x).bind env.llm

/-- Embedding of `RetrievalSystem.answer_question`
(`retrieval_system.py:181-200`): any exception raised inside the chain is
caught and converted to `"Error generating answer: " + str(e)`. -/
def answer_question (env : Env) (question : Chars)
    (chat_history : List (Chars × Chars)) : Chars :=
  match chain_invoke env { question := question, chat_history := chat_history } with
  | .ok answer => answer
  | .error e => chars "Error generating answer: " ++ e

/-! ### Concrete environments used to instantiate the theorems -/

/-- An environment whose language model always raises with message
`"timeout"`, with no extracted entities and no vector index. -/
def envTimeout : Env where
  entity_chain := fun _ => Except.error (chars "extraction down")
  graph_query := fun _ => Except.ok []
  vector_index := none
  llm := fun _ => Except.error (chars "timeout")
  remove_lucene_chars := fun s => s
  render_messages := fun _ => []
  render_input := fun x => x.question

/-- An environment extracting the entities `"X"` and `"Y"` where the graph
store raises for the query built from `"X"` and answers two rows for the
query built from `"Y"`. -/
def envXY : Env where
  entity_chain := fun _ => Except.ok [chars "X", chars "Y"]
  graph_query := fun q =>
    if q = chars "X~2" then Except.error (chars "store down")
    else Except.ok [chars "y1", chars "y2"]
  vector_index := none
  llm := fun _ => Except.ok []
  remove_lucene_chars := fun s => s
  render_messages := fun _ => []
  render_input := fun x => x.question

/-- An environment extracting the entities `"A"` and `"B"` whose queries
return the single rows `"a"` and `"b"` respectively. -/
def envAB : Env where
  entity_chain := fun _ => Except.ok [chars "A", chars "B"]
  graph_query := fun q =>
    if q = chars "A~2" then Except.ok [chars "a"] else Except.ok [chars "b"]
  vector_index := none
  llm := fun _ => Except.ok []
  remove_lucene_chars := fun s => s
  render_messages := fun _ => []
  render_input := fun x => x.question

/-- An environment whose language model always answers `"REWRITTEN"` and
whose passthrough input renders as `"RAWINPUT"`. -/
def envRewrite : Env where
  entity_chain := fun _ => Except.error (chars "extraction down")
  graph_query := fun _ => Except.ok []
  vector_index := none
  llm := fun _ => Except.ok (chars "REWRITTEN")
  remove_lucene_chars := fun s => s
  render_messages := fun _ => chars "H"
  render_input := fun _ => chars "RAWINPUT"

/-- A pipeline input with a non-empty chat history, for exercising the
has-history branch against `envRewrite`. -/
def xRewrite : PipelineInput where
  question := chars "Q"
  chat_history := [(chars "hi", chars "yo")]

/-- An environment whose extractor returns a duplicated and a
whitespace-only entity: `["Acme", " ", "Acme", "Bob"]`. -/
def envDup : Env where
  entity_chain := fun _ => Except.ok [chars "Acme", chars " ", chars "Acme", chars "Bob"]
  graph_query := fun _ => Except.ok []
  vector_index := none
  llm := fun _ => Except.ok []
  remove_lucene_chars := fun s => s
  render_messages := fun _ => []
  render_input := fun x => x.question

/-! ### Properties of the string primitives -/

/-- Every token produced by the split scanner is non-empty and contains no
whitespace characters. -/
theorem pySplitAux_tokens (cs : List Char) :
    ∀ acc : List Char, (∀ c ∈ acc, ¬ c.isWhitespace) →
      ∀ t ∈ pySplitAux cs acc, t ≠ [] ∧ ∀ c ∈ t, ¬ c.isWhitespace := by
  induction cs with
  | nil =>
    intro acc hacc t ht
    simp only [pySplitAux] at ht
    split at ht
    · simp at ht
    · rename_i hne
      simp only [List.mem_singleton] at ht
      subst ht
      refine ⟨by simpa using hne, ?_⟩
      intro c hc
      exact hacc c (List.mem_reverse.mp hc)
  | cons c cs ih =>
    intro acc hacc t ht
    simp only [pySplitAux] at ht
    split at ht
    · split at ht
      · exact ih [] (by simp) t ht
      · rename_i hne
        rcases List.mem_cons.mp ht with h | h
        · subst h
          refine ⟨by simpa using hne, ?_⟩
          intro d hd
          exact hacc d (List.mem_reverse.mp hd)
        · exact ih [] (by simp) t h
    · rename_i hcw
      refine ih (c :: acc) ?_ t ht
      intro d hd
      rcases List.mem_cons.mp hd with h | h
      · subst h; exact hcw
      · exact hacc d h

/-- Tokens of `pySplit` are non-empty and whitespace-free. -/
theorem pySplit_tokens (s : Chars) :
    ∀ t ∈ pySplit s, t ≠ [] ∧ ∀ c ∈ t, ¬ c.isWhitespace :=
  pySplitAux_tokens s [] (by simp)

theorem pyJoin_nil (sep : Chars) : pyJoin sep [] = [] := rfl

theorem pyJoin_single (sep : Chars) (x : Chars) : pyJoin sep [x] = x := rfl

theorem pyJoin_cons_cons (sep x y : Chars) (rest : List Chars) :
    pyJoin sep (x :: y :: rest) = x ++ sep ++ pyJoin sep (y :: rest) := rfl

theorem chars_space : chars " " = [' '] := rfl

theorem chars_sepAND : chars " AND " = [' ', 'A', 'N', 'D', ' '] := rfl

theorem chars_t2 : chars "~2" = ['~', '2'] := rfl

theorem chars_t2AND : chars "~2 AND" = ['~', '2', ' ', 'A', 'N', 'D'] := rfl

/-- A list whose head fails the predicate is unchanged by `dropWhile`. -/
theorem dropWhile_of_head_neg {p : Char → Bool} {l : Chars} {c : Char}
    (hh : l.head? = some c) (hc : ¬ p c) : l.dropWhile p = l := by
  cases l with
  | nil => rfl
  | cons a as =>
    simp only [List.head?_cons, Option.some.injEq] at hh
    subst hh
    exact List.dropWhile_cons_of_neg hc

/-- Head of a join of a non-empty first token. -/
theorem pyJoin_head? (sep x : Chars) (l : List Chars) (hx : x ≠ []) :
    (pyJoin sep (x :: l)).head? = x.head? := by
  cases l with
  | nil => rfl
  | cons y rest =>
    rw [pyJoin_cons_cons]
    obtain ⟨a, as, rfl⟩ := List.exists_cons_of_ne_nil hx
    simp

/-- Every token suffixed with `"~2"` makes the join end in the letter 2. -/
theorem pyJoin_map_t2_getLast (sep : Chars) :
    ∀ ws : List Chars, ws ≠ [] →
      (pyJoin sep (ws.map (fun w => w ++ chars "~2"))).getLast? = some '2' := by
  intro ws
  induction ws with
  | nil => intro h; exact absurd rfl h
  | cons t rest ih =>
    intro _
    cases rest with
    | nil =>
      show (t ++ chars "~2").getLast? = some '2'
      simp [chars_t2]
    | cons y rest2 =>
      rw [List.map_cons, List.map_cons, pyJoin_cons_cons]
      rw [List.getLast?_append]
      have h := ih (by simp)
      rw [List.map_cons] at h
      rw [h]
      rfl

/-- Shifting the accumulator out of the query-building fold. -/
theorem foldl_query_shift (l : List Chars) :
    ∀ a : Chars,
      l.foldl (fun q word => q ++ chars " " ++ word ++ chars "~2 AND") a
        = a ++ l.foldl (fun q word => q ++ chars " " ++ word ++ chars "~2 AND") [] := by
  induction l with
  | nil => intro a; simp
  | cons w rest ih =>
    intro a
    rw [List.foldl_cons, List.foldl_cons, ih, ih ([] ++ chars " " ++ w ++ chars "~2 AND")]
    simp [List.append_assoc]

/-- The pre-strip built query for a non-empty token list is a leading space
followed by the `" AND "`-joined `~2`-suffixed tokens. -/
theorem gftqBody_eq :
    ∀ (rest : List Chars) (t : Chars),
      gftqBody (t :: rest)
        = chars " " ++ pyJoin (chars " AND ") ((t :: rest).map (fun w => w ++ chars "~2")) := by
  intro rest
  induction rest with
  | nil =>
    intro t
    simp [gftqBody, pyJoin, List.append_assoc]
  | cons y rest2 ih =>
    intro t
    have hdrop : (t :: y :: rest2).dropLast = t :: (y :: rest2).dropLast := rfl
    have hlast : (t :: y :: rest2).getLast? = (y :: rest2).getLast? := by
      simp [List.getLast?]
    obtain ⟨L, hL⟩ : ∃ L, (y :: rest2).getLast? = some L := by
      cases h : (y :: rest2).getLast? with
      | none => exact absurd (List.getLast?_eq_none_iff.mp h) (by simp)
      | some L => exact ⟨L, rfl⟩
    have hbody : gftqBody (t :: y :: rest2)
        = ((t :: y :: rest2).dropLast.foldl
            (fun q word => q ++ chars " " ++ word ++ chars "~2 AND") [])
          ++ chars " " ++ L ++ chars "~2" := by
      simp only [gftqBody, hlast, hL]
    have hbody2 : gftqBody (y :: rest2)
        = ((y :: rest2).dropLast.foldl
            (fun q word => q ++ chars " " ++ word ++ chars "~2 AND") [])
          ++ chars " " ++ L ++ chars "~2" := by
      simp only [gftqBody, hL]
    have ihy := ih y
    rw [hbody2] at ihy
    have key : ([] ++ chars " " ++ t ++ chars "~2 AND")
        ++ (chars " " ++ pyJoin (chars " AND ") ((y :: rest2).map (fun w => w ++ chars "~2")))
        = chars " " ++ pyJoin (chars " AND ") ((t :: y :: rest2).map (fun w => w ++ chars "~2")) := by
      rw [List.map_cons, List.map_cons, List.map_cons, pyJoin_cons_cons]
      simp [chars_space, chars_sepAND, chars_t2, chars_t2AND, List.append_assoc]
    rw [hbody, hdrop, List.foldl_cons, foldl_query_shift, ← key, ← ihy]
    simp [List.append_assoc]

/-- Stripping the built query removes exactly the leading space when the
first token is non-empty and whitespace-free. -/
theorem pyStrip_gftq (t : Chars) (rest : List Chars) (ht : t ≠ [])
    (htw : ∀ c ∈ t, ¬ c.isWhitespace) :
    pyStrip (chars " " ++ pyJoin (chars " AND ") ((t :: rest).map (fun w => w ++ chars "~2")))
      = pyJoin (chars " AND ") ((t :: rest).map (fun w => w ++ chars "~2")) := by
  obtain ⟨c, t', rfl⟩ := List.exists_cons_of_ne_nil ht
  have hcw : ¬ c.isWhitespace := htw c (List.mem_cons_self c t')
  have hhead : (pyJoin (chars " AND ")
      (((c :: t') :: rest).map (fun w => w ++ chars "~2"))).head? = some c := by
    rw [List.map_cons, pyJoin_head? _ _ _ (by simp)]
    rfl
  have hlast : (pyJoin (chars " AND ")
      (((c :: t') :: rest).map (fun w => w ++ chars "~2"))).getLast? = some '2' :=
    pyJoin_map_t2_getLast _ _ (by simp)
  unfold pyStrip
  rw [chars_space, List.singleton_append, List.dropWhile_cons_of_pos (by decide)]
  rw [dropWhile_of_head_neg hhead hcw]
  rw [dropWhile_of_head_neg (by rw [List.head?_reverse]; exact hlast) (by decide)]
  rw [List.reverse_reverse]

/-- C1: `generate_full_text_query` is total and, writing `[t1, ..., tn]` for
the whitespace-split tokens of the sanitised input, returns exactly
`"t1~2 AND t2~2 AND ... AND tn~2"` (each token suffixed with `~2`, joined by
`" AND "`, no trailing `AND`, trimmed); zero tokens give the empty string. -/
theorem generate_full_text_query_shape (remove_lucene_chars : Chars → Chars)
    (input_text : Chars) :
    generate_full_text_query remove_lucene_chars input_text
      = pyJoin (chars " AND ")
          ((pySplit (remove_lucene_chars input_text)).map (fun t => t ++ chars "~2")) := by
  have hfilter : (pySplit (remove_lucene_chars input_text)).filter (fun el => el ≠ [])
      = pySplit (remove_lucene_chars input_text) := by
    rw [List.filter_eq_self]
    intro a ha
    simpa using (pySplit_tokens _ a ha).1
  have hdef : generate_full_text_query remove_lucene_chars input_text
      = pyStrip (gftqBody ((pySplit (remove_lucene_chars input_text)).filter
          (fun el => el ≠ []))) := rfl
  rw [hdef, hfilter]
  have htok := pySplit_tokens (remove_lucene_chars input_text)
  cases hws : pySplit (remove_lucene_chars input_text) with
  | nil => rfl
  | cons t rest =>
    rw [gftqBody_eq]
    have ht := htok t (hws ▸ List.mem_cons_self t rest)
    exact pyStrip_gftq t rest ht.1 ht.2

/-! ### Claim theorems -/

/-- C2: `answer_question` never raises: whenever the pipeline invocation
fails with message `e`, it returns `"Error generating answer: " ++ e`
(totality of `answer_question` is inherent in the embedding: every
exception travels in the `Except` value and is caught here). -/
theorem answer_question_error (env : Env) (question : Chars)
    (chat_history : List (Chars × Chars)) (e : Chars)
    (h : chain_invoke env { question := question, chat_history := chat_history }
        = Except.error e) :
    answer_question env question chat_history = chars "Error generating answer: " ++ e := by
  unfold answer_question
  rw [h]

/-- Witness for C2: a model that raises with message `"timeout"` makes
`answer_question` return exactly `"Error generating answer: timeout"`. -/
theorem answer_question_error_witness :
    answer_question envTimeout (chars "anything") [] = chars "Error generating answer: timeout" := by
  have h := answer_question_error envTimeout (chars "anything") [] (chars "timeout") rfl
  rw [h]
  decide

/-- C3: per-entity isolation in `structured_retriever`: if the store raises
for entity `X` but answers `rowsY` for entity `Y`, the result contains
exactly `Y`'s triples, no exception propagates (the function is total) and
every entity is still processed. -/
theorem structured_retriever_isolation (env : Env) (question X Y eX : Chars)
    (rowsY : List Chars)
    (hents : extract_entities env question = [X, Y])
    (hXs : pyStrip X ≠ []) (hYs : pyStrip Y ≠ [])
    (hX : env.graph_query (generate_full_text_query env.remove_lucene_chars X)
        = Except.error eX)
    (hY : env.graph_query (generate_full_text_query env.remove_lucene_chars Y)
        = Except.ok rowsY) :
    structured_retriever env question = pyJoin (chars "\n") rowsY := by
  unfold structured_retriever
  rw [hents]
  simp [hXs, hYs, hX, hY]

/-- Witness for C3: in `envXY` the store raises for `"X"` and the final
structured result is exactly `"y1\ny2"`, the join of `Y`'s rows. -/
theorem structured_retriever_isolation_witness :
    envXY.graph_query (generate_full_text_query envXY.remove_lucene_chars (chars "X"))
      = Except.error (chars "store down")
    ∧ structured_retriever envXY (chars "who") = pyJoin (chars "\n") [chars "y1", chars "y2"] := by
  refine ⟨rfl, ?_⟩
  exact structured_retriever_isolation envXY (chars "who") (chars "X") (chars "Y")
    (chars "store down") [chars "y1", chars "y2"] rfl (by decide) (by decide) rfl rfl

/-- C5: the combined context places the structured section (labelled
`"Structured data:"`, newline, then `S`) strictly before the unstructured
section (labelled `"Unstructured data:"`, newline, then the passages
joined with `"#Document "`); e.g. `S = "S"`, `P = ["a","b"]` yields
`"Structured data:\nS\n\nUnstructured data:\na#Document b"`. -/
theorem combineContext_sections :
    (∀ (S : Chars) (P : List Chars),
      ∃ pre mid : Chars,
        combineContext S P
          = pre ++ (chars "Structured data:\n" ++ S) ++ mid
            ++ (chars "Unstructured data:\n" ++ pyJoin (chars "#Document ") P))
    ∧ combineContext (chars "S") [chars "a", chars "b"]
        = chars "Structured data:\nS\n\nUnstructured data:\na#Document b" := by
  constructor
  · intro S P
    refine ⟨[], chars "\n\n", ?_⟩
    have hsplit : chars "\n\nUnstructured data:\n"
        = chars "\n\n" ++ chars "Unstructured data:\n" := rfl
    unfold combineContext
    rw [hsplit]
    simp [List.append_assoc]
  · rfl

/-- C6: the query rewriter passes the question through unchanged when the
chat history is empty — for any model oracle, so no model call can affect
the result — and for a non-empty history returns exactly the model's text
for the condense prompt built from the formatted history and question. -/
theorem search_query_branching (env : Env) (x : PipelineInput)
    (llm2 : Chars → Except Chars Chars) :
    _search_query { env with llm := llm2 } x
      = if x.chat_history = [] then Except.ok x.question
        else llm2 (CONDENSE_QUESTION_PROMPT
            (env.render_messages (_format_chat_history x.chat_history)) x.question) := by
  unfold _search_query
  by_cases h : x.chat_history = [] <;> simp [h]

/-- C10: when the vector-index handle is unset, no similarity search is
consulted (the unstructured passage list is `[]`), and the combined
context still contains the structured section, followed by an empty
unstructured section. -/
theorem retriever_no_vector_index (env : Env) (question : Chars)
    (h : env.vector_index = none) :
    unstructured_retrieve env question = []
    ∧ retriever env question
        = chars "Structured data:\n" ++ structured_retriever env question
          ++ chars "\n\nUnstructured data:\n" := by
  have hu : unstructured_retrieve env question = [] := by
    unfold unstructured_retrieve
    rw [h]
  refine ⟨hu, ?_⟩
  unfold retriever combineContext
  rw [hu, pyJoin_nil, List.append_nil]

/-- Witness for C10 in the concrete environment `envTimeout`, whose
`vector_index` is `none`. -/
theorem retriever_no_vector_index_witness :
    unstructured_retrieve envTimeout (chars "q") = []
    ∧ retriever envTimeout (chars "q")
        = chars "Structured data:\n" ++ structured_retriever envTimeout (chars "q")
          ++ chars "\n\nUnstructured data:\n" :=
  retriever_no_vector_index envTimeout (chars "q") rfl

/-- The `structured_retriever` loop is the fold of the per-entity trace:
each processed entity contributes the newline-join of its rows, appended
to the running result with no separator in between. -/
theorem structured_fold_eq (env : Env) :
    ∀ (l : List Chars) (init : Chars),
      l.foldl
        (fun result entity =>
          if pyStrip entity = [] then result
          else
            match env.graph_query (generate_full_text_query env.remove_lucene_chars entity) with
            | .ok response => result ++ pyJoin (chars "\n") response
            | .error _ => result)
        init
      = (l.filterMap
          (fun entity =>
            if pyStrip entity = [] then none
            else
              match env.graph_query (generate_full_text_query env.remove_lucene_chars entity) with
              | .ok response => some (entity, response)
              | .error _ => some (entity, []))).foldl
          (fun result p => result ++ pyJoin (chars "\n") p.2) init := by
  intro l
  induction l with
  | nil => intro init; rfl
  | cons e l ih =>
    intro init
    by_cases he : pyStrip e = []
    · rw [List.foldl_cons, List.filterMap_cons, if_pos he, if_pos he]
      exact ih init
    · cases hq : env.graph_query (generate_full_text_query env.remove_lucene_chars e) with
      | ok response =>
        rw [List.foldl_cons, List.filterMap_cons, if_neg he, if_neg he, hq]
        rw [List.foldl_cons]
        exact ih _
      | error err =>
        rw [List.foldl_cons, List.filterMap_cons, if_neg he, if_neg he, hq]
        rw [List.foldl_cons, pyJoin_nil, List.append_nil]
        exact ih init

/-- Folding append over blocks starting from `init` is `init` followed by
the flattened blocks. -/
theorem foldl_append_blocks {α : Type} (g : α → Chars) :
    ∀ (L : List α) (init : Chars),
      L.foldl (fun r p => r ++ g p) init = init ++ (L.map g).flatten := by
  intro L
  induction L with
  | nil => intro init; simp
  | cons p L ih =>
    intro init
    rw [List.foldl_cons, ih, List.map_cons, List.flatten_cons, List.append_assoc]

/-- C7 counterexample: with two entities whose queries return the single
rows `"a"` and `"b"`, the structured result is `"ab"`: the last line of one
entity's block and the first line of the next are concatenated with no
newline between them, refuting the claimed newline separation. -/
theorem structured_retriever_blocks_cex :
    structured_retriever envAB (chars "q") = chars "ab"
    ∧ pyJoin (chars "\n") [chars "a", chars "b"] = chars "a\nb"
    ∧ structured_retriever envAB (chars "q") ≠ pyJoin (chars "\n") [chars "a", chars "b"] :=
  ⟨rfl, rfl, by decide⟩

/-- C7 amended: within one entity the rows are newline-joined, and the
per-entity blocks are then concatenated directly (no separator between
blocks), in entity-extraction order. -/
theorem structured_retriever_blocks (env : Env) (question : Chars) :
    structured_retriever env question
      = ((structuredSteps env question).map (fun p => pyJoin (chars "\n") p.2)).flatten := by
  have h1 : structured_retriever env question
      = (structuredSteps env question).foldl
          (fun result p => result ++ pyJoin (chars "\n") p.2) [] := by
    unfold structured_retriever structuredSteps
    exact structured_fold_eq env (extract_entities env question) []
  rw [h1]
  have h2 := foldl_append_blocks (fun p : Chars × List Chars => pyJoin (chars "\n") p.2)
    (structuredSteps env question) []
  simpa using h2

/-- C8: assuming the store honours the `LIMIT 50` of the per-entity Cypher
query, every entity contributes at most 50 rows, and the total number of
rows across a question's entities is at most `50 * k` for `k` queried
entities — the cap is per entity query call, not global. -/
theorem structured_per_entity_cap (env : Env) (question : Chars)
    (hlim : ∀ q rows, env.graph_query q = Except.ok rows → rows.length ≤ 50) :
    (∀ p ∈ structuredSteps env question, p.2.length ≤ 50)
    ∧ ((structuredSteps env question).map (fun p => p.2.length)).sum
        ≤ 50 * (structuredSteps env question).length := by
  have hall : ∀ p ∈ structuredSteps env question, p.2.length ≤ 50 := by
    intro p hp
    unfold structuredSteps at hp
    rcases List.mem_filterMap.mp hp with ⟨e, _, hfe⟩
    by_cases hs : pyStrip e = []
    · rw [if_pos hs] at hfe
      exact absurd hfe (by simp)
    · rw [if_neg hs] at hfe
      cases hq : env.graph_query (generate_full_text_query env.remove_lucene_chars e) with
      | ok response =>
        rw [hq] at hfe
        simp only [Option.some.injEq] at hfe
        rw [← hfe]
        exact hlim _ _ hq
      | error err =>
        rw [hq] at hfe
        simp only [Option.some.injEq] at hfe
        rw [← hfe]
        simp
  refine ⟨hall, ?_⟩
  have hb : ∀ x ∈ (structuredSteps env question).map (fun p => p.2.length), x ≤ 50 := by
    intro x hx
    rcases List.mem_map.mp hx with ⟨p, hp, rfl⟩
    exact hall p hp
  have hsum := List.sum_le_card_nsmul _ 50 hb
  simpa [smul_eq_mul, Nat.mul_comm] using hsum

/-- Witness for C8 at the concrete environment `envAB`. -/
theorem structured_per_entity_cap_witness :
    (∀ p ∈ structuredSteps envAB (chars "q"), p.2.length ≤ 50)
    ∧ ((structuredSteps envAB (chars "q")).map (fun p => p.2.length)).sum
        ≤ 50 * (structuredSteps envAB (chars "q")).length := by
  refine structured_per_entity_cap envAB (chars "q") ?_
  intro q rows h
  have hgq : envAB.graph_query q
      = if q = chars "A~2" then Except.ok [chars "a"] else Except.ok [chars "b"] := rfl
  rw [hgq] at h
  split at h
  · injection h with h2
    rw [← h2]
    decide
  · injection h with h2
    rw [← h2]
    decide

/-- C9 counterexample: with extractor output `["Acme", " ", "Acme", "Bob"]`
the retriever queries `["Acme", "Acme", "Bob"]` — the whitespace-only entry
is skipped, but `"Acme"` is queried twice, so the queried collection is not
duplicate-free as claimed. -/
theorem structured_queried_entities_cex :
    (structuredSteps envDup (chars "q")).map Prod.fst
      = [chars "Acme", chars "Acme", chars "Bob"]
    ∧ ¬ ((structuredSteps envDup (chars "q")).map Prod.fst).Nodup :=
  ⟨rfl, by decide⟩

/-- C9 amended: the entities actually queried are exactly the extractor's
output restricted to entries with non-empty strip, in extraction order,
keeping duplicates and the original (untrimmed) text. -/
theorem structured_queried_entities (env : Env) (question : Chars) :
    (structuredSteps env question).map Prod.fst
      = (extract_entities env question).filter (fun e => pyStrip e ≠ []) := by
  unfold structuredSteps
  generalize extract_entities env question = l
  induction l with
  | nil => rfl
  | cons e l ih =>
    by_cases hs : pyStrip e = []
    · rw [List.filterMap_cons, if_pos hs, List.filter_cons, if_neg (by simp [hs])]
      exact ih
    · rw [List.filterMap_cons, if_neg hs, List.filter_cons, if_pos (by simp [hs])]
      cases hq : env.graph_query (generate_full_text_query env.remove_lucene_chars e) with
      | ok r => simpa using ih
      | error err => simpa using ih

/-- C4 counterexample: with a non-empty history the rewriter produces
`"REWRITTEN"`, yet the `{question}` slot of the final QA prompt receives
the passthrough rendering of the raw input (`"RAWINPUT"`), not the
rewritten search question, so the prompt differs from the one the claim
describes. -/
theorem final_prompt_question_slot_cex :
    _search_query envRewrite xRewrite = Except.ok (chars "REWRITTEN")
    ∧ final_prompt envRewrite xRewrite
        = Except.ok (qa_prompt (retriever envRewrite (chars "REWRITTEN")) (chars "RAWINPUT"))
    ∧ qa_prompt (retriever envRewrite (chars "REWRITTEN")) (chars "RAWINPUT")
        ≠ qa_prompt (retriever envRewrite (chars "REWRITTEN")) (chars "REWRITTEN") :=
  ⟨rfl, rfl, by decide⟩

/-- C4 amended: when the rewriter yields the search question `sq`, the
final QA prompt takes its `{context}` from retrieval on `sq` but its
`{question}` from the raw chain input passed through by
`RunnablePassthrough()` — the rewritten question reaches only the
retrieval side. -/
theorem final_prompt_question_slot (env : Env) (x : PipelineInput) (sq : Chars)
    (h : _search_query env x = Except.ok sq) :
    final_prompt env x = Except.ok (qa_prompt (retriever env sq) (env.render_input x)) := by
  unfold final_prompt
  rw [h]
  rfl

/-- Witness for C4's amended theorem at the concrete environment
`envRewrite`. -/
theorem final_prompt_question_slot_witness :
    _search_query envRewrite xRewrite = Except.ok (chars "REWRITTEN")
    ∧ final_prompt envRewrite xRewrite
        = Except.ok (qa_prompt (retriever envRewrite (chars "REWRITTEN")) (chars "RAWINPUT")) :=
  ⟨rfl, final_prompt_question_slot envRewrite xRewrite (chars "REWRITTEN") rfl⟩
